import Mathlib

/-!
Shallow embedding of the Express/MongoDB REST API in `src/server.js`
(models in `src/models/`), together with theorems about its route handlers.

Conventions of the embedding:
* Mongo `ObjectId`s are modelled as `Nat`; a `DB` carries a `nextId` counter
  standing for fresh-id generation at insert time.
* Dates are modelled as `Nat` timestamps; the current time is passed to the
  order-creation handler as an explicit `now` argument.
* Mongo decimals are modelled as `Rat`.
* An HTTP JSON response is either a `payload` (a record or list serialized
  back to the client) or a `message` (a `\x7b message: ... \x7d` body); the
  status code is carried alongside.  Response message strings are kept
  verbatim from the source.
* Randomness of the `chance` library is modelled as an oracle (`ChanceRng`):
  arbitrary streams of values, with the range constraints of
  `chance.integer`/`chance.floating` enforced by the model.
-/

/-- Byte-wise (code-point) lexicographic `≤` on char lists, the BSON/JS
    default string ordering used by Mongo `$sort` on string fields. -/
def strLeAux : List Char → List Char → Bool
  | [], _ => true
  | _ :: _, [] => false
  | c :: cs, d :: ds =>
    if c.val < d.val then true
    else if d.val < c.val then false
    else strLeAux cs ds

/-- ASCII lowercase of one char, modelling JS case folding for the
    case-insensitive (`'i'`) regex flag on the ASCII range. -/
def lowerChar (c : Char) : Char :=
  if 65 ≤ c.toNat ∧ c.toNat ≤ 90 then Char.ofNat (c.toNat + 32) else c

/-- Case-insensitive substring test: the model of
    `name: \x7b $regex: new RegExp(search, 'i') \x7d` for a search string
    without regex metacharacters. -/
def strContainsCI (hay pat : String) : Bool :=
  let h := hay.data.map lowerChar
  let p := pat.data.map lowerChar
  (List.range (h.length + 1)).any (fun i => p.isPrefixOf (h.drop i))

/-- Product record.  The schema file `src/models/product.js` is not under
    `src/`; its fields are modelled from the spec data model (name string,
    quantity integer, price decimal, image URL string) and from their use in
    `server.js`.  `id` models the Mongo `_id`. -/
structure Product where
  id : Nat
  name : String
  quantity : Int
  price : Rat
  image : String
deriving DecidableEq, Repr

/-- Modelled from the spec: the User schema (`src/models/user.js` is not under
    `src/`): first name, last name, email, all strings.  `password` is kept as
    an optional extra field so that the `userDetails.password` projection of
    the order-details join is meaningful on documents that carry one. -/
structure User where
  id : Nat
  firstName : String
  lastName : String
  email : String
  password : Option String
deriving DecidableEq, Repr

/-- Order record, from `src/models/order.js`: createdAt date, userId and
    productId references. -/
structure Order where
  id : Nat
  createdAt : Nat
  userId : Nat
  productId : Nat
deriving DecidableEq, Repr

/-- The three Mongo collections plus a fresh-id counter. -/
structure DB where
  users : List User
  products : List Product
  orders : List Order
  nextId : Nat
deriving DecidableEq, Repr

/-- An HTTP JSON response: either a serialized payload or a
    `\x7b message: ... \x7d` body, each with its status code. -/
inductive ApiResult (α : Type) where
  | payload (status : Nat) (body : α)
  | message (status : Nat) (text : String)
deriving DecidableEq, Repr

/-- `POST /create-order` (`server.js` lines 41-69): look up the user, look up
    the product, 400 if the user is missing, then 400 if the product is
    missing, otherwise persist a new order stamped `now` and answer 201 with a
    success message. -/
def createOrderHandler (db : DB) (now userId productId : Nat) :
    ApiResult Unit × DB :=
  let userExists := db.users.find? (fun u => u.id == userId)
  let productExists := db.products.find? (fun p => p.id == productId)
  match userExists with
  | none => (.message 400 "Користувач не знайдено.", db)
  | some _ =>
    match productExists with
    | none => (.message 400 "Продукт не знайдено.", db)
    | some _ =>
      let newOrder : Order :=
        { id := db.nextId, createdAt := now, userId := userId,
          productId := productId }
      (.message 201 "Замовлення успішно створено.",
        { db with orders := db.orders ++ [newOrder], nextId := db.nextId + 1 })

/-- First user of the witness database. -/
def wU1 : User :=
  { id := 1, firstName := "Ada", lastName := "Lovelace",
    email := "ada@example.com", password := none }

/-- Second user of the witness database, carrying a password field. -/
def wU2 : User :=
  { id := 2, firstName := "Bob", lastName := "Stone",
    email := "bob@example.com", password := some "hunter2" }

/-- First product of the witness database. -/
def wP1 : Product :=
  { id := 10, name := "apple", quantity := 5, price := 10, image := "a" }

/-- Second product of the witness database. -/
def wP2 : Product :=
  { id := 11, name := "pear", quantity := 7, price := 20, image := "b" }

/-- Concrete database used by witnesses: two users, two products, one order. -/
def wDB : DB :=
  { users := [wU1, wU2],
    products := [wP1, wP2],
    orders := [ { id := 100, createdAt := 3, userId := 1, productId := 10 } ],
    nextId := 200 }

/-- Claim C1: for `POST /create-order`, a missing user yields a 400 with the
    user-not-found message and an unchanged database; an existing user with a
    missing product yields a 400 with the product-not-found message and an
    unchanged database; and when both exist a new order holding `now` and both
    identifiers is appended and a 201 success message (not the record) is
    returned. -/
theorem createOrder_correct (db : DB) (now userId productId : Nat) :
    (db.users.find? (fun u => u.id == userId) = none →
      createOrderHandler db now userId productId =
        (.message 400 "Користувач не знайдено.", db)) ∧
    (∀ u, db.users.find? (fun u => u.id == userId) = some u →
      db.products.find? (fun p => p.id == productId) = none →
      createOrderHandler db now userId productId =
        (.message 400 "Продукт не знайдено.", db)) ∧
    (∀ u p, db.users.find? (fun u => u.id == userId) = some u →
      db.products.find? (fun p => p.id == productId) = some p →
      createOrderHandler db now userId productId =
        (.message 201 "Замовлення успішно створено.",
          { db with
              orders := db.orders ++
                [{ id := db.nextId, createdAt := now, userId := userId,
                   productId := productId }],
              nextId := db.nextId + 1 })) := by
  refine ⟨fun h => ?_, fun u hu hp => ?_, fun u p hu hp => ?_⟩
  · simp [createOrderHandler, h]
  · simp [createOrderHandler, hu, hp]
  · simp [createOrderHandler, hu, hp]

/-- Witness for C1: all three branches at concrete inputs on `wDB`. -/
theorem createOrder_correct_witness :
    createOrderHandler wDB 7 99 10 =
      (.message 400 "Користувач не знайдено.", wDB) ∧
    createOrderHandler wDB 7 1 99 =
      (.message 400 "Продукт не знайдено.", wDB) ∧
    createOrderHandler wDB 7 1 10 =
      (.message 201 "Замовлення успішно створено.",
        { wDB with
            orders := wDB.orders ++
              [{ id := wDB.nextId, createdAt := 7, userId := 1,
                 productId := 10 }],
            nextId := wDB.nextId + 1 }) := by
  refine ⟨(createOrder_correct wDB 7 99 10).1 (by decide),
    (createOrder_correct wDB 7 1 99).2.1 wU1 (by decide) (by decide),
    (createOrder_correct wDB 7 1 10).2.2 wU1 wP1 (by decide) (by decide)⟩

/-- Claim C9: when neither the user nor the product identifier resolves, the
    response is the 400 user-not-found message: the user-existence check is
    evaluated and returned first. -/
theorem createOrder_user_checked_first (db : DB) (now userId productId : Nat)
    (hu : db.users.find? (fun u => u.id == userId) = none)
    (hp : db.products.find? (fun p => p.id == productId) = none) :
    createOrderHandler db now userId productId =
      (.message 400 "Користувач не знайдено.", db) := by
  simp [createOrderHandler, hu, hp]

/-- Witness for C9 at a concrete input on `wDB`. -/
theorem createOrder_user_checked_first_witness :
    createOrderHandler wDB 7 99 98 =
      (.message 400 "Користувач не знайдено.", wDB) :=
  createOrder_user_checked_first wDB 7 99 98 (by decide) (by decide)

/-- Model of `Product.findByIdAndUpdate(pid, fields, { new: true })`: rewrite
    the first (in Mongo the unique) document whose `_id` matches, returning
    the post-update document and the new collection. -/
def updateById (pid : Nat) (f : Product → Product) :
    List Product → Option Product × List Product
  | [] => (none, [])
  | p :: ps =>
    if p.id == pid then (some (f p), f p :: ps)
    else
      let r := updateById pid f ps
      (r.1, p :: r.2)

/-- `PUT /products/:productId` (`server.js` lines 100-120): replace
    name/quantity/price/image by identifier; 404 if the identifier does not
    resolve, otherwise 200 with the post-update record. -/
def productsPutHandler (db : DB) (pid : Nat) (name : String) (quantity : Int)
    (price : Rat) (image : String) : ApiResult Product × DB :=
  let r := updateById pid
    (fun p => { p with name := name, quantity := quantity, price := price,
                       image := image }) db.products
  match r.1 with
  | none => (.message 404 "Продукт не знайдено.", db)
  | some updated => (.payload 200 updated, { db with products := r.2 })

/-- Model of `Product.findByIdAndDelete(pid)`: remove the first (unique)
    document whose `_id` matches, returning it and the remaining collection. -/
def deleteById (pid : Nat) : List Product → Option Product × List Product
  | [] => (none, [])
  | p :: ps =>
    if p.id == pid then (some p, ps)
    else
      let r := deleteById pid ps
      (r.1, p :: r.2)

/-- `DELETE /products/:productId` (`server.js` lines 121-136): remove by
    identifier; 404 if not found, otherwise 200 with the deleted record. -/
def productsDeleteHandler (db : DB) (pid : Nat) : ApiResult Product × DB :=
  let r := deleteById pid db.products
  match r.1 with
  | none => (.message 404 "Продукт не знайдено.", db)
  | some deleted => (.payload 200 deleted, { db with products := r.2 })

theorem updateById_of_find_none (pid : Nat) (f : Product → Product) :
    ∀ l : List Product, l.find? (fun p => p.id == pid) = none →
      updateById pid f l = (none, l) := by
  intro l
  induction l with
  | nil => intro _; rfl
  | cons p ps ih =>
    intro h
    by_cases hb : (p.id == pid) = true
    · rw [List.find?_cons_of_pos (p := fun x : Product => x.id == pid) _ hb] at h
      exact Option.noConfusion h
    · rw [List.find?_cons_of_neg (p := fun x : Product => x.id == pid) _ hb] at h
      simp [updateById, hb, ih h]

theorem updateById_of_find_some (pid : Nat) (f : Product → Product)
    (hf : ∀ p, (f p).id = p.id) :
    ∀ l : List Product, ∀ q, l.find? (fun p => p.id == pid) = some q →
      (updateById pid f l).1 = some (f q) ∧
      (updateById pid f l).2.find? (fun p => p.id == pid) = some (f q) := by
  intro l
  induction l with
  | nil => intro q h; exact Option.noConfusion h
  | cons p ps ih =>
    intro q h
    by_cases hb : (p.id == pid) = true
    · rw [List.find?_cons_of_pos (p := fun x : Product => x.id == pid) _ hb] at h
      have hq : p = q := Option.some.inj h
      subst hq
      have hfq : ((f p).id == pid) = true := by
        have := hf p
        simp only [this]
        exact hb
      have hupd : updateById pid f (p :: ps) = (some (f p), f p :: ps) := by
        simp [updateById, hb]
      refine ⟨by rw [hupd], ?_⟩
      rw [hupd]
      exact List.find?_cons_of_pos (p := fun x : Product => x.id == pid) _ hfq
    · rw [List.find?_cons_of_neg (p := fun x : Product => x.id == pid) _ hb] at h
      have hrec := ih q h
      have hupd : updateById pid f (p :: ps) =
          ((updateById pid f ps).1, p :: (updateById pid f ps).2) := by
        simp [updateById, hb]
      refine ⟨by rw [hupd]; exact hrec.1, ?_⟩
      rw [hupd]
      show (p :: (updateById pid f ps).2).find? (fun p => p.id == pid) =
        some (f q)
      rw [List.find?_cons_of_neg (p := fun x : Product => x.id == pid) _ hb]
      exact hrec.2

theorem deleteById_of_find_none (pid : Nat) :
    ∀ l : List Product, l.find? (fun p => p.id == pid) = none →
      deleteById pid l = (none, l) := by
  intro l
  induction l with
  | nil => intro _; rfl
  | cons p ps ih =>
    intro h
    by_cases hb : (p.id == pid) = true
    · rw [List.find?_cons_of_pos (p := fun x : Product => x.id == pid) _ hb] at h
      exact Option.noConfusion h
    · rw [List.find?_cons_of_neg (p := fun x : Product => x.id == pid) _ hb] at h
      simp [deleteById, hb, ih h]

theorem deleteById_of_find_some (pid : Nat) :
    ∀ l : List Product, ∀ q, l.find? (fun p => p.id == pid) = some q →
      (l.map (fun p => p.id)).Nodup →
      (deleteById pid l).1 = some q ∧
      (deleteById pid l).2.find? (fun p => p.id == pid) = none := by
  intro l
  induction l with
  | nil => intro q h _; exact Option.noConfusion h
  | cons p ps ih =>
    intro q h hnd
    rw [List.map_cons, List.nodup_cons] at hnd
    by_cases hb : (p.id == pid) = true
    · rw [List.find?_cons_of_pos (p := fun x : Product => x.id == pid) _ hb] at h
      have hq : p = q := Option.some.inj h
      subst hq
      have hdel : deleteById pid (p :: ps) = (some p, ps) := by
        simp [deleteById, hb]
      refine ⟨by rw [hdel], ?_⟩
      rw [hdel]
      rw [List.find?_eq_none]
      intro x hx hpx
      apply hnd.1
      have hxid : x.id = p.id := by
        have h1 : x.id = pid := by simpa using hpx
        have h2 : p.id = pid := by simpa using hb
        rw [h1, h2]
      rw [← hxid]
      exact List.mem_map_of_mem (fun p => p.id) hx
    · rw [List.find?_cons_of_neg (p := fun x : Product => x.id == pid) _ hb] at h
      have hrec := ih q h hnd.2
      have hdel : deleteById pid (p :: ps) =
          ((deleteById pid ps).1, p :: (deleteById pid ps).2) := by
        simp [deleteById, hb]
      refine ⟨by rw [hdel]; exact hrec.1, ?_⟩
      rw [hdel]
      show (p :: (deleteById pid ps).2).find? (fun p => p.id == pid) = none
      rw [List.find?_cons_of_neg (p := fun x : Product => x.id == pid) _ hb]
      exact hrec.2

theorem productsDeleteHandler_of_find_none (db : DB) (pid : Nat)
    (h : db.products.find? (fun p => p.id == pid) = none) :
    productsDeleteHandler db pid = (.message 404 "Продукт не знайдено.", db) := by
  simp [productsDeleteHandler, deleteById_of_find_none pid db.products h]

/-- Claim C5: for `PUT /products/:productId`, an unresolvable identifier
    yields a 404 not-found and an unchanged database; a resolvable one yields
    a 200 whose body is the post-update record carrying exactly the submitted
    name/quantity/price/image, and the stored record under that identifier now
    carries exactly those values. -/
theorem productsPut_correct (db : DB) (pid : Nat) (name : String)
    (quantity : Int) (price : Rat) (image : String) :
    (db.products.find? (fun p => p.id == pid) = none →
      productsPutHandler db pid name quantity price image =
        (.message 404 "Продукт не знайдено.", db)) ∧
    (∀ p, db.products.find? (fun p => p.id == pid) = some p →
      (productsPutHandler db pid name quantity price image).1 =
        .payload 200 { id := p.id, name := name, quantity := quantity,
                       price := price, image := image } ∧
      ((productsPutHandler db pid name quantity price image).2).products.find?
          (fun q => q.id == pid) =
        some { id := p.id, name := name, quantity := quantity,
               price := price, image := image }) := by
  constructor
  · intro h
    simp [productsPutHandler, updateById_of_find_none pid _ db.products h]
  · intro p hp
    have h2 := updateById_of_find_some pid
      (fun q => { q with name := name, quantity := quantity, price := price,
                         image := image })
      (fun _ => rfl) db.products p hp
    exact ⟨by simp [productsPutHandler, h2.1],
           by simp [productsPutHandler, h2.1, h2.2]⟩

/-- Witness for C5: both branches at concrete inputs on `wDB`. -/
theorem productsPut_correct_witness :
    productsPutHandler wDB 99 "kiwi" 9 30 "z" =
      (.message 404 "Продукт не знайдено.", wDB) ∧
    (productsPutHandler wDB 10 "kiwi" 9 30 "z").1 =
      .payload 200 { id := 10, name := "kiwi", quantity := 9, price := 30,
                     image := "z" } ∧
    ((productsPutHandler wDB 10 "kiwi" 9 30 "z").2).products.find?
        (fun q => q.id == 10) =
      some { id := 10, name := "kiwi", quantity := 9, price := 30,
             image := "z" } := by
  refine ⟨(productsPut_correct wDB 99 "kiwi" 9 30 "z").1 (by decide),
    ((productsPut_correct wDB 10 "kiwi" 9 30 "z").2 wP1 (by decide)).1,
    ((productsPut_correct wDB 10 "kiwi" 9 30 "z").2 wP1 (by decide)).2⟩

/-- Claim C6: for `DELETE /products/:productId`, a resolvable identifier
    yields a 200 with the removed record's last state and the identifier no
    longer resolves afterwards, so a second delete of the same identifier
    yields a 404 not-found; an unresolvable identifier yields a 404 and an
    unchanged database.  Uniqueness of `_id`s in the collection (a Mongo
    invariant) is taken as a hypothesis. -/
theorem productsDelete_correct (db : DB) (pid : Nat) :
    (db.products.find? (fun p => p.id == pid) = none →
      productsDeleteHandler db pid = (.message 404 "Продукт не знайдено.", db)) ∧
    (∀ p, db.products.find? (fun p => p.id == pid) = some p →
      (db.products.map (fun p => p.id)).Nodup →
      (productsDeleteHandler db pid).1 = .payload 200 p ∧
      ((productsDeleteHandler db pid).2).products.find?
        (fun q => q.id == pid) = none ∧
      productsDeleteHandler (productsDeleteHandler db pid).2 pid =
        (.message 404 "Продукт не знайдено.", (productsDeleteHandler db pid).2)) := by
  constructor
  · intro h
    exact productsDeleteHandler_of_find_none db pid h
  · intro p hp hnd
    have h2 := deleteById_of_find_some pid db.products p hp hnd
    refine ⟨by simp [productsDeleteHandler, h2.1], ?_, ?_⟩
    · simp [productsDeleteHandler, h2.1, h2.2]
    · have h3 : ((productsDeleteHandler db pid).2).products.find?
          (fun q => q.id == pid) = none := by
        simp [productsDeleteHandler, h2.1, h2.2]
      exact productsDeleteHandler_of_find_none (productsDeleteHandler db pid).2
        pid h3

/-- Witness for C6: deleting product 10 from `wDB` twice, and deleting a
    missing identifier, at concrete inputs. -/
theorem productsDelete_correct_witness :
    productsDeleteHandler wDB 99 = (.message 404 "Продукт не знайдено.", wDB) ∧
    (productsDeleteHandler wDB 10).1 = .payload 200 wP1 ∧
    productsDeleteHandler (productsDeleteHandler wDB 10).2 10 =
      (.message 404 "Продукт не знайдено.", (productsDeleteHandler wDB 10).2) := by
  refine ⟨(productsDelete_correct wDB 99).1 (by decide),
    ((productsDelete_correct wDB 10).2 wP1 (by decide) (by decide)).1,
    ((productsDelete_correct wDB 10).2 wP1 (by decide) (by decide)).2.2⟩

/-- Oracle model of the `chance` instance: streams of arbitrary values indexed
    by draw position, plus a stream of raw naturals from which the bounded
    draws (`chance.integer`, `chance.floating`) are derived. -/
structure ChanceRng where
  firstName : Nat → String
  lastName : Nat → String
  email : Nat → String
  word : Nat → String
  url : Nat → String
  natStream : Nat → Nat

/-- Document produced by `generateUserData`, before Mongo assigns an `_id`. -/
structure UserData where
  firstName : String
  lastName : String
  email : String
deriving DecidableEq, Repr

/-- Document produced by `generateProductData`, before Mongo assigns an `_id`. -/
structure ProductData where
  name : String
  quantity : Int
  price : Rat
  image : String
deriving DecidableEq, Repr

/-- `chance.integer(\x7b min: lo, max: hi \x7d)`: an integer in `[lo, hi]`,
    modelled as `lo` plus a raw draw reduced modulo the range size. -/
def chanceInteger (c : ChanceRng) (lo hi k : Nat) : Int :=
  ((lo + c.natStream k % (hi - lo + 1) : Nat) : Int)

/-- `chance.floating(\x7b min: lo, max: hi, fixed: 2 \x7d)`: a number in
    `[lo, hi]` with two decimal places, i.e. an integer count of hundredths. -/
def chanceFloating2 (c : ChanceRng) (lo hi k : Nat) : Rat :=
  ((lo * 100 + c.natStream k % ((hi - lo) * 100 + 1) : Nat) : Rat) / 100

/-- `generateUserData` (`server.js` lines 12-16), at draw position `k`. -/
def generateUserData (c : ChanceRng) (k : Nat) : UserData :=
  { firstName := c.firstName k, lastName := c.lastName k, email := c.email k }

/-- `generateProductData` (`server.js` lines 18-23), at draw position `k`. -/
def generateProductData (c : ChanceRng) (k : Nat) : ProductData :=
  { name := c.word k, quantity := chanceInteger c 1 100 k,
    price := chanceFloating2 c 1 1000 k, image := c.url k }

/-- `User.insertMany(usersData)`: append each document in order, Mongo
    assigning a fresh `_id` to each. -/
def insertManyUsers (db : DB) (ds : List UserData) : DB :=
  ds.foldl (fun d u =>
    { d with
        users := d.users ++
          [{ id := d.nextId, firstName := u.firstName, lastName := u.lastName,
             email := u.email, password := none }],
        nextId := d.nextId + 1 }) db

/-- `Product.insertMany(productsData)`: append each document in order, Mongo
    assigning a fresh `_id` to each. -/
def insertManyProducts (db : DB) (ds : List ProductData) : DB :=
  ds.foldl (fun d p =>
    { d with
        products := d.products ++
          [{ id := d.nextId, name := p.name, quantity := p.quantity,
             price := p.price, image := p.image }],
        nextId := d.nextId + 1 }) db

/-- `GET /add-initial-data` (`server.js` lines 27-40): generate and insert 10
    users and then 10 products, answering 200 with a success message. -/
def addInitialDataHandler (c : ChanceRng) (db : DB) : ApiResult Unit × DB :=
  let usersData := (List.range 10).map (generateUserData c)
  let db1 := insertManyUsers db usersData
  let productsData := (List.range 10).map (generateProductData c)
  let db2 := insertManyProducts db1 productsData
  (.message 200 "Початкові дані успішно додані.", db2)

theorem insertManyUsers_users_length (ds : List UserData) :
    ∀ db : DB, (insertManyUsers db ds).users.length = db.users.length + ds.length := by
  induction ds with
  | nil => intro db; rfl
  | cons d ds ih =>
    intro db
    refine Eq.trans (ih _) ?_
    simp [List.length_append]
    omega

theorem insertManyUsers_products (ds : List UserData) :
    ∀ db : DB, (insertManyUsers db ds).products = db.products := by
  induction ds with
  | nil => intro db; rfl
  | cons d ds ih => intro db; exact ih _

theorem insertManyProducts_products_length (ds : List ProductData) :
    ∀ db : DB,
      (insertManyProducts db ds).products.length = db.products.length + ds.length := by
  induction ds with
  | nil => intro db; rfl
  | cons d ds ih =>
    intro db
    refine Eq.trans (ih _) ?_
    simp [List.length_append]
    omega

theorem insertManyProducts_users (ds : List ProductData) :
    ∀ db : DB, (insertManyProducts db ds).users = db.users := by
  induction ds with
  | nil => intro db; rfl
  | cons d ds ih => intro db; exact ih _

theorem insertManyProducts_mem (ds : List ProductData) :
    ∀ db : DB, ∀ p ∈ (insertManyProducts db ds).products,
      p ∈ db.products ∨ ∃ d ∈ ds, p.name = d.name ∧ p.quantity = d.quantity ∧
        p.price = d.price ∧ p.image = d.image := by
  induction ds with
  | nil => intro db p hp; exact Or.inl hp
  | cons d ds ih =>
    intro db p hp
    rcases ih _ p hp with h | ⟨e, he, hf⟩
    · rw [List.mem_append] at h
      rcases h with h | h
      · exact Or.inl h
      · rw [List.mem_singleton] at h
        exact Or.inr ⟨d, List.mem_cons_self d ds,
          by rw [h], by rw [h], by rw [h], by rw [h]⟩
    · exact Or.inr ⟨e, List.mem_cons_of_mem d he, hf⟩

theorem generateProductData_range (c : ChanceRng) (k : Nat) :
    1 ≤ (generateProductData c k).quantity ∧
    (generateProductData c k).quantity ≤ 100 ∧
    1 ≤ (generateProductData c k).price ∧
    (generateProductData c k).price ≤ 1000 ∧
    ∃ m : Int, (generateProductData c k).price * 100 = (m : Rat) := by
  refine ⟨?_, ?_, ?_, ?_, ?_⟩
  · show (1 : Int) ≤ chanceInteger c 1 100 k
    simp only [chanceInteger]
    omega
  · show chanceInteger c 1 100 k ≤ 100
    simp only [chanceInteger]
    omega
  · show (1 : Rat) ≤ chanceFloating2 c 1 1000 k
    rw [chanceFloating2, le_div_iff₀ (by norm_num : (0:Rat) < 100)]
    have h : (100 : Nat) ≤ 1 * 100 + c.natStream k % ((1000 - 1) * 100 + 1) := by
      omega
    calc (1 : Rat) * 100 = ((100 : Nat) : Rat) := by norm_num
      _ ≤ _ := by exact_mod_cast h
  · show chanceFloating2 c 1 1000 k ≤ 1000
    rw [chanceFloating2, div_le_iff₀ (by norm_num : (0:Rat) < 100)]
    have h : 1 * 100 + c.natStream k % ((1000 - 1) * 100 + 1) ≤ (100000 : Nat) := by
      have := Nat.mod_lt (c.natStream k) (y := (1000 - 1) * 100 + 1) (by omega)
      omega
    calc ((1 * 100 + c.natStream k % ((1000 - 1) * 100 + 1) : Nat) : Rat)
        ≤ ((100000 : Nat) : Rat) := by exact_mod_cast h
      _ = 1000 * 100 := by norm_num
  · refine ⟨((1 * 100 + c.natStream k % ((1000 - 1) * 100 + 1) : Nat) : Int), ?_⟩
    show chanceFloating2 c 1 1000 k * 100 = _
    rw [chanceFloating2, div_mul_cancel₀ _ (by norm_num : (100:Rat) ≠ 0)]
    norm_cast

/-- Claim C7: every `GET /add-initial-data` call answers 200 with the success
    message and inserts exactly 10 new users and exactly 10 new products (so a
    second call doubles both increments, with no deduplication); each inserted
    product that was not already present has an integer quantity in `[1, 100]`
    and a price in `[1, 1000]` that is an integer count of hundredths (two
    decimal places). -/
theorem addInitialData_counts (c c2 : ChanceRng) (db : DB) :
    (addInitialDataHandler c db).1 =
      .message 200 "Початкові дані успішно додані." ∧
    ((addInitialDataHandler c db).2).users.length = db.users.length + 10 ∧
    ((addInitialDataHandler c db).2).products.length = db.products.length + 10 ∧
    ((addInitialDataHandler c2 (addInitialDataHandler c db).2).2).users.length =
      db.users.length + 20 ∧
    ((addInitialDataHandler c2 (addInitialDataHandler c db).2).2).products.length =
      db.products.length + 20 ∧
    (∀ p ∈ ((addInitialDataHandler c db).2).products,
      p ∈ db.products ∨
        (1 ≤ p.quantity ∧ p.quantity ≤ 100 ∧ 1 ≤ p.price ∧ p.price ≤ 1000 ∧
          ∃ m : Int, p.price * 100 = (m : Rat))) := by
  have husers : ∀ c : ChanceRng, ∀ d : DB,
      ((addInitialDataHandler c d).2).users.length = d.users.length + 10 := by
    intro c d
    show ((insertManyProducts (insertManyUsers d _) _)).users.length = _
    rw [insertManyProducts_users, insertManyUsers_users_length]
    simp
  have hprods : ∀ c : ChanceRng, ∀ d : DB,
      ((addInitialDataHandler c d).2).products.length = d.products.length + 10 := by
    intro c d
    show ((insertManyProducts (insertManyUsers d _) _)).products.length = _
    rw [insertManyProducts_products_length, insertManyUsers_products]
    simp
  refine ⟨rfl, husers c db, hprods c db, ?_, ?_, ?_⟩
  · rw [husers c2 _, husers c db]
  · rw [hprods c2 _, hprods c db]
  · intro p hp
    have hmem := insertManyProducts_mem _ _ p hp
    rcases hmem with h | ⟨d, hd, hf⟩
    · rw [insertManyUsers_products] at h
      exact Or.inl h
    · rw [List.mem_map] at hd
      obtain ⟨k, _, hk⟩ := hd
      have hr := generateProductData_range c k
      rw [hk] at hr
      right
      rw [hf.2.1, hf.2.2.1]
      exact ⟨hr.1, hr.2.1, hr.2.2.1, hr.2.2.2.1, hr.2.2.2.2⟩

/-- One stage of the `GET /products` aggregation pipeline. -/
inductive Stage where
  | matchName (search : String)
  | sortAsc (field : String)
  | skipDocs (n : Int)
  | limitDocs (n : Int)
deriving DecidableEq, Repr

/-- Ascending comparison of two products on a sort field, as Mongo `$sort`
    compares BSON values; on a field name that is not part of the schema all
    documents compare equal. -/
def fieldLe (field : String) (p q : Product) : Bool :=
  if field == "name" then strLeAux p.name.data q.name.data
  else if field == "quantity" then decide (p.quantity ≤ q.quantity)
  else if field == "price" then decide (p.price ≤ q.price)
  else if field == "image" then strLeAux p.image.data q.image.data
  else if field == "_id" then decide (p.id ≤ q.id)
  else true

/-- Insert into a sorted list, before the first larger-or-equal element. -/
def sortInsert (le : Product → Product → Bool) (x : Product) :
    List Product → List Product
  | [] => [x]
  | y :: ys => if le x y then x :: y :: ys else y :: sortInsert le x ys

/-- Stable insertion sort, modelling Mongo `$sort` with an ascending key. -/
def sortByStage (le : Product → Product → Bool) : List Product → List Product
  | [] => []
  | x :: xs => sortInsert le x (sortByStage le xs)

/-- Run one pipeline stage; `none` models a server-side aggregation error
    (Mongo rejects a negative `$skip` and a non-positive `$limit`). -/
def runStage (l : List Product) : Stage → Option (List Product)
  | .matchName s => some (l.filter (fun p => strContainsCI p.name s))
  | .sortAsc f => some (sortByStage (fieldLe f) l)
  | .skipDocs n => if n < 0 then none else some (l.drop n.toNat)
  | .limitDocs n => if n ≤ 0 then none else some (l.take n.toNat)

/-- Run an aggregation pipeline left to right, propagating errors. -/
def runPipeline (l : List Product) : List Stage → Option (List Product)
  | [] => some l
  | st :: rest =>
    match runStage l st with
    | none => none
    | some l2 => runPipeline l2 rest

/-- Base-10 value of a digit list. -/
def digitsToNat (cs : List Char) : Nat :=
  cs.foldl (fun a c => a * 10 + (c.toNat - 48)) 0

/-- JS `parseInt(s)` in base 10: skip leading whitespace, accept an optional
    sign, read leading digits; `none` models `NaN` (no digits at all). -/
def parseIntJS (s : String) : Option Int :=
  match s.data.dropWhile Char.isWhitespace with
  | '-' :: rest =>
    let ds := rest.takeWhile Char.isDigit
    if ds.isEmpty then none else some (-(digitsToNat ds : Int))
  | '+' :: rest =>
    let ds := rest.takeWhile Char.isDigit
    if ds.isEmpty then none else some ((digitsToNat ds : Int))
  | cs =>
    let ds := cs.takeWhile Char.isDigit
    if ds.isEmpty then none else some ((digitsToNat ds : Int))

/-- JS `v || d` over a parsed integer: `NaN` (`none`) and `0` are falsy. -/
def jsOr (v : Option Int) (d : Int) : Int :=
  match v with
  | none => d
  | some 0 => d
  | some n => n

/-- `const sortField = sort || 'name'` (absent or empty is falsy). -/
def sortFieldOf (sort : Option String) : String :=
  match sort with
  | some s => if s == "" then "name" else s
  | none => "name"

/-- `const skipValue = parseInt(skip) || 0`. -/
def skipValueOf (skip : Option String) : Int :=
  jsOr (match skip with | some s => parseIntJS s | none => none) 0

/-- `const limitValue = parseInt(limit) || 10`. -/
def limitValueOf (limit : Option String) : Int :=
  jsOr (match limit with | some s => parseIntJS s | none => none) 10

/-- `GET /products` (`server.js` lines 139-173): build the aggregation
    pipeline — optional name-regex `$match` when `search` is truthy, `$sort`
    ascending on `sort || 'name'`, `$skip`, `$limit` — and run it; an
    aggregation error is caught and answered as a 500. -/
def productsGetHandler (db : DB) (search sort skip limit : Option String) :
    ApiResult (List Product) :=
  let pipeline1 : List Stage :=
    match search with
    | some s => if s == "" then [] else [.matchName s]
    | none => []
  let pipeline2 := pipeline1 ++ [.sortAsc (sortFieldOf sort)]
  let pipeline3 := pipeline2 ++
    [.skipDocs (skipValueOf skip), .limitDocs (limitValueOf limit)]
  match runPipeline db.products pipeline3 with
  | none => .message 500 "Помилка при отриманні списку продуктів."
  | some l => .payload 200 l

/-- Spec-side description of the products query, written from the spec's
    words for comparison with the handler: optional case-insensitive name
    filter, then ascending sort on the sort field, then skip, then limit. -/
def productsQuerySpec (products : List Product) (search : Option String)
    (field : String) (skipN limitN : Nat) : List Product :=
  let filtered :=
    match search with
    | some s =>
      if s == "" then products
      else products.filter (fun p => strContainsCI p.name s)
    | none => products
  ((sortByStage (fieldLe field) filtered).drop skipN).take limitN

theorem runPipeline_sort_skip_limit (l : List Product) (f : String) (a b : Int)
    (ha : 0 ≤ a) (hb : 0 < b) :
    runPipeline l [.sortAsc f, .skipDocs a, .limitDocs b] =
      some (((sortByStage (fieldLe f) l).drop a.toNat).take b.toNat) := by
  simp [runPipeline, runStage, not_lt.mpr ha, not_le.mpr hb]

theorem runPipeline_matchName (l : List Product) (s : String)
    (rest : List Stage) :
    runPipeline l (.matchName s :: rest) =
      runPipeline (l.filter (fun p => strContainsCI p.name s)) rest := rfl

theorem runPipeline_sort_skip_limit_err (l : List Product) (f : String)
    (a b : Int) (h : a < 0 ∨ b ≤ 0) :
    runPipeline l [.sortAsc f, .skipDocs a, .limitDocs b] = none := by
  rcases h with h | h
  · simp [runPipeline, runStage, h]
  · by_cases ha : a < 0
    · simp [runPipeline, runStage, ha]
    · simp [runPipeline, runStage, ha, h]

/-- Products used by the query-pipeline witnesses, named so that the first
    two in ascending name order are `qP1`, `qP2`. -/
def qP1 : Product :=
  { id := 1, name := "apple", quantity := 1, price := 5, image := "u1" }

/-- Second product by name order. -/
def qP2 : Product :=
  { id := 2, name := "banana", quantity := 2, price := 6, image := "u2" }

/-- Third product by name order. -/
def qP3 : Product :=
  { id := 3, name := "cherry", quantity := 3, price := 7, image := "u3" }

/-- Fourth product by name order. -/
def qP4 : Product :=
  { id := 4, name := "date", quantity := 4, price := 8, image := "u4" }

/-- Fifth product by name order. -/
def qP5 : Product :=
  { id := 5, name := "elderberry", quantity := 5, price := 9, image := "u5" }

/-- Query-pipeline witness database: five products stored out of name order. -/
def qDB : DB :=
  { users := [], products := [qP3, qP1, qP5, qP2, qP4], orders := [],
    nextId := 50 }

/-- Counterexample to C4 as stated: not every `GET /products` query is
    answered with the pipeline page.  `parseInt("-1")` is `-1`, which is
    truthy, so a `skip=-1` query sends `$skip: -1` to Mongo — rejected
    server-side — and the handler answers the 500 message instead of a page;
    likewise `limit=-1` sends the rejected `$limit: -1`. -/
theorem productsQuery_negative_counterexample :
    productsGetHandler qDB none none (some "-1") none =
      .message 500 "Помилка при отриманні списку продуктів." ∧
    productsGetHandler qDB none none none (some "-1") =
      .message 500 "Помилка при отриманні списку продуктів." :=
  ⟨by decide, by decide⟩

/-- Claim C4 (amended): for every `GET /products` query whose parsed skip is
    non-negative and parsed limit positive (all defaults included), the
    response is the page obtained by applying, in order, the optional
    case-insensitive name filter, the ascending sort on the requested field
    (default `name`), the skip (default 0) and the limit (default 10); with
    `limit=2&skip=0` over the five products of `qDB` the page is exactly the
    two products ranked first and second by name; and a query whose skip
    parses negative or whose limit parses non-positive is rejected by the
    database and answered with the 500 message. -/
theorem productsQuery_refines_spec :
    (∀ (db : DB) (search sort skip limit : Option String),
      0 ≤ skipValueOf skip → 0 < limitValueOf limit →
      productsGetHandler db search sort skip limit =
        .payload 200 (productsQuerySpec db.products search (sortFieldOf sort)
          (skipValueOf skip).toNat (limitValueOf limit).toNat)) ∧
    productsGetHandler qDB none none (some "0") (some "2") =
      .payload 200 [qP1, qP2] ∧
    (∀ (db : DB) (search sort skip limit : Option String),
      skipValueOf skip < 0 ∨ limitValueOf limit ≤ 0 →
      productsGetHandler db search sort skip limit =
        .message 500 "Помилка при отриманні списку продуктів.") := by
  refine ⟨?_, by decide, ?_⟩
  · intro db search sort skip limit hs hl
    have hrun := fun l => runPipeline_sort_skip_limit l (sortFieldOf sort)
      (skipValueOf skip) (limitValueOf limit) hs hl
    match search with
    | none =>
      simp [productsGetHandler, productsQuerySpec, hrun]
    | some s =>
      by_cases hempty : (s == "") = true
      · simp [productsGetHandler, productsQuerySpec, hempty, hrun]
      · simp [productsGetHandler, productsQuerySpec, hempty,
          runPipeline_matchName, hrun]
  · intro db search sort skip limit herr
    have hrun := fun l => runPipeline_sort_skip_limit_err l (sortFieldOf sort)
      (skipValueOf skip) (limitValueOf limit) herr
    match search with
    | none =>
      simp [productsGetHandler, hrun]
    | some s =>
      by_cases hempty : (s == "") = true
      · simp [productsGetHandler, hempty, hrun]
      · simp [productsGetHandler, hempty, runPipeline_matchName, hrun]

/-- Witness for C4 (amended): the general refinement applied on `qDB` with a
    search string, a sort field and explicit skip and limit parameters, and
    the 500 rejection applied to a negative skip. -/
theorem productsQuery_refines_spec_witness :
    productsGetHandler qDB (some "err") (some "price") (some "1") (some "2") =
      .payload 200 (productsQuerySpec qDB.products (some "err")
        (sortFieldOf (some "price")) (skipValueOf (some "1")).toNat
        (limitValueOf (some "2")).toNat) ∧
    0 ≤ skipValueOf (some "1") ∧ 0 < limitValueOf (some "2") ∧
    productsGetHandler qDB none none (some "-5") none =
      .message 500 "Помилка при отриманні списку продуктів." := by
  refine ⟨productsQuery_refines_spec.1 qDB (some "err") (some "price")
    (some "1") (some "2") (by decide) (by decide), by decide, by decide,
    productsQuery_refines_spec.2.2 qDB none none (some "-5") none
      (Or.inl (by decide))⟩

theorem sortInsert_length (le : Product → Product → Bool) (x : Product) :
    ∀ l : List Product, (sortInsert le x l).length = l.length + 1 := by
  intro l
  induction l with
  | nil => rfl
  | cons y ys ih =>
    by_cases h : le x y = true
    · simp [sortInsert, h]
    · simp [sortInsert, h, ih]

theorem sortByStage_length (le : Product → Product → Bool) :
    ∀ l : List Product, (sortByStage le l).length = l.length := by
  intro l
  induction l with
  | nil => rfl
  | cons x xs ih => simp [sortByStage, sortInsert_length, ih]

theorem productsGetHandler_limit_congr (db : DB)
    (search sort skip l1 l2 : Option String)
    (h : limitValueOf l1 = limitValueOf l2) :
    productsGetHandler db search sort skip l1 =
      productsGetHandler db search sort skip l2 := by
  simp only [productsGetHandler, h]

theorem productsGetHandler_skip_congr (db : DB)
    (search sort limit s1 s2 : Option String)
    (h : skipValueOf s1 = skipValueOf s2) :
    productsGetHandler db search sort s1 limit =
      productsGetHandler db search sort s2 limit := by
  simp only [productsGetHandler, h]

/-- Claim C10: in `GET /products`, a limit parameter that parses to `0` or
    does not parse to an integer behaves exactly like an absent limit (the
    default of 10 documents), a skip parameter that does not parse behaves
    like an absent skip (0), and with a non-empty collection the `limit=0`
    query returns a non-empty page — `limit=0` can never force an empty
    page. -/
theorem productsQuery_limit_default :
    (∀ (db : DB) (search sort skip : Option String),
      productsGetHandler db search sort skip (some "0") =
        productsGetHandler db search sort skip none) ∧
    (∀ (db : DB) (search sort skip : Option String) (s : String),
      parseIntJS s = none →
      productsGetHandler db search sort skip (some s) =
        productsGetHandler db search sort skip none) ∧
    (∀ (db : DB) (search sort limit : Option String) (s : String),
      parseIntJS s = none →
      productsGetHandler db search sort (some s) limit =
        productsGetHandler db search sort none limit) ∧
    (∀ db : DB, db.products ≠ [] →
      ∃ l, productsGetHandler db none none none (some "0") =
        .payload 200 l ∧ l ≠ []) := by
  refine ⟨?_, ?_, ?_, ?_⟩
  · intro db search sort skip
    exact productsGetHandler_limit_congr db search sort skip _ _ rfl
  · intro db search sort skip s hs
    apply productsGetHandler_limit_congr
    simp [limitValueOf, hs]
  · intro db search sort limit s hs
    apply productsGetHandler_skip_congr
    simp [skipValueOf, hs]
  · intro db hne
    have hrun := runPipeline_sort_skip_limit db.products "name" 0 10
      (by norm_num) (by norm_num)
    refine ⟨(sortByStage (fieldLe "name") db.products).take 10, ?_, ?_⟩
    · have hskip : skipValueOf none = (0 : Int) := rfl
      have hlim : limitValueOf (some "0") = (10 : Int) := rfl
      have hsf : sortFieldOf none = "name" := rfl
      simp only [productsGetHandler, hskip, hlim, hsf, List.nil_append,
        List.cons_append]
      rw [hrun]
      rfl
    · have h2 : 0 < db.products.length := List.length_pos.mpr hne
      intro hnil
      have h1 : ((sortByStage (fieldLe "name") db.products).take 10).length = 0 := by
        rw [hnil]; rfl
      rw [List.length_take, sortByStage_length] at h1
      omega

/-- Witness for C10: the non-parsing and non-empty-page branches at concrete
    inputs on `qDB`. -/
theorem productsQuery_limit_default_witness :
    productsGetHandler qDB none none none (some "abc") =
      productsGetHandler qDB none none none none ∧
    productsGetHandler qDB none none (some "xyz") none =
      productsGetHandler qDB none none none none ∧
    (∃ l, productsGetHandler qDB none none none (some "0") =
      .payload 200 l ∧ l ≠ []) := by
  refine ⟨productsQuery_limit_default.2.1 qDB none none none "abc" (by decide),
    productsQuery_limit_default.2.2.1 qDB none none none "xyz" (by decide),
    productsQuery_limit_default.2.2.2 qDB (by decide)⟩

/-- The single projected document of `GET /products-statistic`, holding
    exactly the seven projected fields. -/
structure StatsDoc where
  avgPrice : Rat
  totalPrice : Rat
  minPrice : Rat
  maxPrice : Rat
  uniqueNames : List String
  firstProductName : String
  lastProductName : String
deriving DecidableEq, Repr

/-- The `$group _id: null` + `$project` pipeline of `GET /products-statistic`
    (`server.js` lines 176-212): over a non-empty collection it produces one
    group holding the average, sum, min and max of `price`, the distinct
    names (`$addToSet`), and the names of the first and last documents
    (`$first`/`$last` of `$$ROOT`).  Over an empty collection `$group` emits
    no group at all, so the result is the empty list. -/
def productsStatisticAgg : List Product → List StatsDoc
  | [] => []
  | p :: rest =>
    let prices := (p :: rest).map (fun q => q.price)
    [{ avgPrice := prices.sum / (prices.length : Rat),
       totalPrice := prices.sum,
       minPrice := rest.foldl (fun a q => min a q.price) p.price,
       maxPrice := rest.foldl (fun a q => max a q.price) p.price,
       uniqueNames := ((p :: rest).map (fun q => q.name)).dedup,
       firstProductName := p.name,
       lastProductName := ((p :: rest).getLastD p).name }]

/-- `GET /products-statistic` (`server.js` lines 176-212): 200 with the
    aggregation result list. -/
def productsStatisticHandler (db : DB) : ApiResult (List StatsDoc) :=
  .payload 200 (productsStatisticAgg db.products)

/-- Database with no documents at all. -/
def emptyDB : DB := { users := [], products := [], orders := [], nextId := 0 }

/-- Counterexample to C3 as stated: on the empty product collection the
    response body is the empty list, not a single-element list, because
    `$group` over zero input documents emits no group. -/
theorem productsStatistic_empty_counterexample :
    productsStatisticHandler emptyDB = .payload 200 ([] : List StatsDoc) ∧
    ([] : List StatsDoc).length ≠ 1 :=
  ⟨rfl, by decide⟩

/-- First product of the statistics witness database (price 10). -/
def sP1 : Product :=
  { id := 21, name := "pa", quantity := 1, price := 10, image := "s1" }

/-- Second product of the statistics witness database (price 20). -/
def sP2 : Product :=
  { id := 22, name := "pb", quantity := 2, price := 20, image := "s2" }

/-- Third product of the statistics witness database (price 30). -/
def sP3 : Product :=
  { id := 23, name := "pc", quantity := 3, price := 30, image := "s3" }

/-- Statistics witness database: three products with prices 10, 20, 30. -/
def sDB : DB :=
  { users := [], products := [sP1, sP2, sP3], orders := [], nextId := 60 }

/-- Claim C3 (amended): for every **non-empty** product collection,
    `GET /products-statistic` answers 200 with a single-element list whose one
    object carries the seven projected fields; over the prices 10, 20, 30 it
    yields avgPrice 20, totalPrice 60, minPrice 10 and maxPrice 30.  (On an
    empty collection the body is the empty list.) -/
theorem productsStatistic_correct :
    (∀ db : DB, db.products ≠ [] →
      ∃ d : StatsDoc, productsStatisticHandler db = .payload 200 [d]) ∧
    (∃ d : StatsDoc, productsStatisticHandler sDB = .payload 200 [d] ∧
      d.avgPrice = 20 ∧ d.totalPrice = 60 ∧ d.minPrice = 10 ∧
      d.maxPrice = 30) := by
  constructor
  · intro db h
    obtain ⟨p, rest, hm⟩ : ∃ p rest, db.products = p :: rest := by
      cases hl : db.products with
      | nil => exact absurd hl h
      | cons p rest => exact ⟨p, rest, rfl⟩
    have hh : productsStatisticHandler db =
        ApiResult.payload 200 (productsStatisticAgg (p :: rest)) := by
      unfold productsStatisticHandler
      rw [hm]
    rw [hh]
    exact ⟨_, rfl⟩
  · refine ⟨_, rfl, ?_, ?_, ?_, ?_⟩
    · show ([sP1, sP2, sP3].map (fun q => q.price)).sum /
        (([sP1, sP2, sP3].map (fun q => q.price)).length : Rat) = 20
      norm_num [sP1, sP2, sP3]
    · show ([sP1, sP2, sP3].map (fun q => q.price)).sum = 60
      norm_num [sP1, sP2, sP3]
    · show [sP2, sP3].foldl (fun a q => min a q.price) sP1.price = 10
      norm_num [sP1, sP2, sP3, List.foldl, min_def]
    · show [sP2, sP3].foldl (fun a q => max a q.price) sP1.price = 30
      norm_num [sP1, sP2, sP3, List.foldl, max_def]

/-- Witness for C3 (amended): the single-element shape applied on `sDB`. -/
theorem productsStatistic_correct_witness :
    ∃ d : StatsDoc, productsStatisticHandler sDB = .payload 200 [d] :=
  productsStatistic_correct.1 sDB (by decide)

/-- The joined user of the order-details output: the full user record minus
    its password field (the `userDetails.password: 0` projection). -/
structure UserPublic where
  id : Nat
  firstName : String
  lastName : String
  email : String
deriving DecidableEq, Repr

/-- Remove the password field from a user record. -/
def stripPassword (u : User) : UserPublic :=
  { id := u.id, firstName := u.firstName, lastName := u.lastName,
    email := u.email }

/-- One document of the order-details aggregation output: the order fields
    with `userDetails` (password projected away) and `productDetails`
    inlined. -/
structure OrderDetailsDoc where
  id : Nat
  createdAt : Nat
  userId : Nat
  productId : Nat
  userDetails : UserPublic
  productDetails : Product
deriving DecidableEq, Repr

/-- The aggregation pipeline of `GET /order-details/:orderId` (`server.js`
    lines 219-252), stage by stage: `$match` on `_id`, `$lookup` of users as
    `userDetails`, `$unwind`, `$lookup` of products as `productDetails`,
    `$unwind`, then the `$project` removing `userDetails.password`.  Each
    `$unwind` emits one document per element of the looked-up array, so a
    document whose array is empty is dropped. -/
def orderDetailsAgg (db : DB) (oid : Nat) : List OrderDetailsDoc :=
  let matched := db.orders.filter (fun o => o.id == oid)
  let withUsers := matched.map
    (fun o => (o, db.users.filter (fun u => u.id == o.userId)))
  let unwoundUsers := withUsers.flatMap (fun x => x.2.map (fun u => (x.1, u)))
  let withProducts := unwoundUsers.map
    (fun x => (x, db.products.filter (fun p => p.id == x.1.productId)))
  let unwoundProducts := withProducts.flatMap
    (fun x => x.2.map (fun p => (x.1.1, x.1.2, p)))
  unwoundProducts.map (fun x =>
    { id := x.1.id, createdAt := x.1.createdAt, userId := x.1.userId,
      productId := x.1.productId, userDetails := stripPassword x.2.1,
      productDetails := x.2.2 })

/-- `GET /order-details/:orderId` (`server.js` lines 215-263): 404 when the
    aggregation result is empty, otherwise 200 with its first document. -/
def orderDetailsHandler (db : DB) (oid : Nat) : ApiResult OrderDetailsDoc :=
  match orderDetailsAgg db oid with
  | [] => .message 404 "Замовлення не знайдено."
  | d :: _ => .payload 200 d

/-- Order stored in `wDB`. -/
def wO1 : Order := { id := 100, createdAt := 3, userId := 1, productId := 10 }

/-- Order referencing a user that does not exist. -/
def cexO : Order := { id := 1, createdAt := 5, userId := 100, productId := 10 }

/-- Database holding an order whose referenced user record is absent. -/
def cexDB : DB :=
  { users := [], products := [wP1], orders := [cexO], nextId := 300 }

/-- Order referencing a product that does not exist. -/
def cex2O : Order := { id := 1, createdAt := 5, userId := 2, productId := 77 }

/-- Database holding an order whose referenced product record is absent. -/
def cex2DB : DB :=
  { users := [wU2], products := [], orders := [cex2O], nextId := 301 }

/-- Counterexample to C2 as stated: in `cexDB` the identifier 1 resolves to
    an existing order, yet the response is the 404 not-found message (the
    referenced user record is gone and `$unwind` drops the document), not a
    200. -/
theorem orderDetails_missing_user_counterexample :
    cexO ∈ cexDB.orders ∧ cexO.id = 1 ∧
    orderDetailsHandler cexDB 1 = .message 404 "Замовлення не знайдено." :=
  ⟨by decide, by decide, by decide⟩

/-- Claim C2 (amended): for `GET /order-details/:orderId`, an identifier that
    does not resolve to an order yields the 404 not-found message; an
    identifier resolving to an order **whose referenced user and product
    records exist** yields a 200 whose body is the order with the full user
    record minus its password field and the full product record inlined. -/
theorem orderDetails_join_correct (db : DB) (oid : Nat) :
    (db.orders.filter (fun o => o.id == oid) = [] →
      orderDetailsHandler db oid = .message 404 "Замовлення не знайдено.") ∧
    (∀ o u p, db.orders.filter (fun x => x.id == oid) = [o] →
      db.users.filter (fun x => x.id == o.userId) = [u] →
      db.products.filter (fun x => x.id == o.productId) = [p] →
      orderDetailsHandler db oid = .payload 200
        { id := o.id, createdAt := o.createdAt, userId := o.userId,
          productId := o.productId, userDetails := stripPassword u,
          productDetails := p }) := by
  constructor
  · intro h
    simp [orderDetailsHandler, orderDetailsAgg, h]
  · intro o u p ho hu hp
    simp [orderDetailsHandler, orderDetailsAgg, ho, hu, hp]

/-- Witness for C2 (amended): the 404 branch and the join branch on `wDB`. -/
theorem orderDetails_join_correct_witness :
    orderDetailsHandler wDB 999 = .message 404 "Замовлення не знайдено." ∧
    orderDetailsHandler wDB 100 = .payload 200
      { id := 100, createdAt := 3, userId := 1, productId := 10,
        userDetails := stripPassword wU1, productDetails := wP1 } := by
  refine ⟨(orderDetails_join_correct wDB 999).1 (by decide),
    (orderDetails_join_correct wDB 100).2 wO1 wU1 wP1 (by decide) (by decide)
      (by decide)⟩


theorem unwoundProducts_nil (db : DB) (o : Order)
    (h : db.products.filter (fun x => x.id == o.productId) = []) :
    ∀ us : List User,
      (List.map
          (fun x => (x, db.products.filter (fun p => p.id == x.1.productId)))
          (List.map (fun u => (o, u)) us)).flatMap
        (fun x => List.map (fun p => (x.1.1, x.1.2, p)) x.2) = [] := by
  intro us
  induction us with
  | nil => rfl
  | cons u us ih =>
    simp only [List.map_cons, List.flatMap_cons, ih, List.append_nil]
    show List.map _
      (db.products.filter (fun p => p.id == o.productId)) = []
    rw [h]
    rfl

/-- Claim C8: when the identifier resolves to an existing order but the
    referenced user record or the referenced product record no longer exists,
    the `$unwind` stages drop the order from the pipeline output and the
    response is the 404 not-found message. -/
theorem orderDetails_unwind_drops (db : DB) (oid : Nat) (o : Order)
    (ho : db.orders.filter (fun x => x.id == oid) = [o])
    (hmiss : db.users.filter (fun x => x.id == o.userId) = [] ∨
      db.products.filter (fun x => x.id == o.productId) = []) :
    orderDetailsHandler db oid = .message 404 "Замовлення не знайдено." := by
  rcases hmiss with h | h
  · simp [orderDetailsHandler, orderDetailsAgg, ho, h, Function.comp]
  · have hagg : orderDetailsAgg db oid = [] := by
      unfold orderDetailsAgg
      rw [ho]
      simp only [List.map_cons, List.map_nil, List.flatMap_cons,
        List.flatMap_nil, List.append_nil]
      rw [unwoundProducts_nil db o h]
      rfl
    simp [orderDetailsHandler, hagg]

/-- Witness for C8: both the missing-user and the missing-product case at
    concrete inputs. -/
theorem orderDetails_unwind_drops_witness :
    orderDetailsHandler cexDB 1 = .message 404 "Замовлення не знайдено." ∧
    orderDetailsHandler cex2DB 1 = .message 404 "Замовлення не знайдено." :=
  ⟨orderDetails_unwind_drops cexDB 1 cexO (by decide) (Or.inl (by decide)),
   orderDetails_unwind_drops cex2DB 1 cex2O (by decide) (Or.inr (by decide))⟩
